import Mathlib

/-!
Shallow embedding of `src/shared_queue.h` (namespace `sq`), the MPMC shared
ring queue with an importance-aware overwrite policy.

Modelling conventions:
* `head`, `tail` and per-slot `sequence` are C++ `size_t` counters.  They are
  modelled as `Nat`; the signed difference `static_cast<intptr_t>(a) -
  static_cast<intptr_t>(b)` is modelled as `(a : Int) - (b : Int)`, which
  agrees with the C++ computation for all values below `2^63` (all states
  considered here stay far below that bound, so the wraparound of the machine
  integers never matters).
* The claims under proof are single-threaded ("no other thread running"), so
  atomic loads return the current field, and `compare_exchange_weak(pos, pos+1)`
  is modelled as succeeding exactly when the counter equals `pos` and, on
  failure, reloading `pos` from the counter (what the C++ failure path does).
  Spurious weak-CAS failures do not occur in the deterministic model.
* The retry loops of `enqueue` / `dequeue` take explicit fuel; a result of
  `none` means the loop has not returned within that many iterations (so
  `∀ fuel, ... = none` says the call never returns).
-/

namespace sq

/-- Control block fields of `Shared_Control_Block` (shared_queue.h lines 19-34).
`initialization_flag`: 0 = uninitialized, 1 = initializing, 2 = initialized. -/
structure Shared_Control_Block where
  initialization_flag : Nat
  head : Nat
  tail : Nat
  capacity : Nat
deriving DecidableEq, Repr

/-- Constructor `Shared_Control_Block(size_t cap)` (lines 30-33): it sets
`initialization_flag` to 0, `head` and `tail` to 0 and `capacity` to `cap`. -/
def Shared_Control_Block.construct (cap : Nat) : Shared_Control_Block :=
  { initialization_flag := 0, head := 0, tail := 0, capacity := cap }

/-- One `Buffer_Slot` (lines 40-47): a sequence tag, the payload and the
importance flag. -/
structure Buffer_Slot (T : Type) where
  sequence : Nat
  data : T
  important : Bool
deriving DecidableEq, Repr

/-- The shared state a bound `Shared_Queue` handle sees: the control block and
the slot array.  The buffer is total over `Nat`; only physical indices below
`capacity` are ever read or written by the operations. -/
@[ext]
structure Shared_Queue (T : Type) where
  control_block : Shared_Control_Block
  buffer : Nat → Buffer_Slot T

namespace Shared_Queue

variable {T : Type}

/-- Method `wrap` (lines 53-56): `index % capacity`. -/
def wrap (q : Shared_Queue T) (index : Nat) : Nat :=
  index % q.control_block.capacity

/-- Method `is_empty` (lines 65-70). -/
def is_empty (q : Shared_Queue T) : Bool :=
  q.control_block.head == q.control_block.tail

/-- Method `size_approx` (lines 73-78): `tail - head` in `size_t` arithmetic.
In every state considered here `head ≤ tail`, where `Nat` subtraction agrees
with the machine subtraction. -/
def size_approx (q : Shared_Queue T) : Nat :=
  q.control_block.tail - q.control_block.head

/-- The successful-enqueue commit (lines 96-98 and 116-118): after the winning
CAS moved `tail` to `pos + 1`, store `data := value`, `important := imp`,
`sequence := pos + 1` into the slot at `wrap pos`. -/
def enqueueCommit (q : Shared_Queue T) (pos : Nat) (value : T) (imp : Bool) :
    Shared_Queue T :=
  { control_block := { q.control_block with tail := pos + 1 },
    buffer := fun j =>
      if j = q.wrap pos then
        { sequence := pos + 1, data := value, important := imp }
      else q.buffer j }

/-- The `while (true)` body of `enqueue` (lines 85-129), fuel-indexed.
`pos` is the producer's current position; the recursive calls model the loop
continuing after a failed CAS (which reloads `pos` from `tail`) or after the
`diff > 0` reload at line 127. -/
def enqueueFrom (q : Shared_Queue T) (value : T) (imp : Bool) :
    Nat → Nat → Option (Bool × Shared_Queue T)
  | _, 0 => none
  | pos, fuel + 1 =>
    let slot := q.buffer (q.wrap pos)
    let diff : Int := (slot.sequence : Int) - (pos : Int)
    if diff = 0 then
      -- lines 91-101: slot ready for writing; CAS tail: pos → pos + 1
      if q.control_block.tail = pos then
        some (true, q.enqueueCommit pos value imp)
      else
        enqueueFrom q value imp q.control_block.tail fuel
    else if diff < 0 then
      -- lines 102-123: buffer full at this position
      if slot.important then
        some (false, q) -- lines 105-110: cannot overwrite important data
      else if q.control_block.tail = pos then
        some (true, q.enqueueCommit pos value imp) -- lines 113-121: overwrite
      else
        enqueueFrom q value imp q.control_block.tail fuel
    else
      -- lines 124-128: another producer moved tail; reload pos and retry
      enqueueFrom q value imp q.control_block.tail fuel

/-- Method `enqueue` (lines 81-130): load `pos = tail` (line 83) and run the
loop with the given fuel. -/
def enqueue (q : Shared_Queue T) (value : T) (imp : Bool) (fuel : Nat) :
    Option (Bool × Shared_Queue T) :=
  enqueueFrom q value imp q.control_block.tail fuel

/-- The successful-dequeue commit (lines 148-152): after the winning CAS moved
`head` to `pos + 1`, clear `important` and store `sequence := pos + capacity`
into the slot at `wrap pos`; the payload is left in place. -/
def dequeueCommit (q : Shared_Queue T) (pos : Nat) : Shared_Queue T :=
  { control_block := { q.control_block with head := pos + 1 },
    buffer := fun j =>
      if j = q.wrap pos then
        { sequence := pos + q.control_block.capacity,
          data := (q.buffer (q.wrap pos)).data,
          important := false }
      else q.buffer j }

/-- The `while (true)` body of `dequeue` (lines 137-165), fuel-indexed.
On success the returned pair `(v, imp)` models the values written through the
`value` and `important` out-parameters; `some (none, q)` models `return false`. -/
def dequeueFrom (q : Shared_Queue T) :
    Nat → Nat → Option (Option (T × Bool) × Shared_Queue T)
  | _, 0 => none
  | pos, fuel + 1 =>
    let slot := q.buffer (q.wrap pos)
    let diff : Int := (slot.sequence : Int) - ((pos : Int) + 1)
    if diff = 0 then
      -- lines 143-154: slot ready for reading; CAS head: pos → pos + 1
      if q.control_block.head = pos then
        some (some (slot.data, slot.important), q.dequeueCommit pos)
      else
        dequeueFrom q q.control_block.head fuel
    else if diff < 0 then
      some (none, q) -- lines 155-158: buffer is empty
    else
      -- lines 160-164: another consumer moved head; reload pos and retry
      dequeueFrom q q.control_block.head fuel

/-- Method `dequeue` (lines 133-166): load `pos = head` (line 135) and run the
loop with the given fuel. -/
def dequeue (q : Shared_Queue T) (fuel : Nat) :
    Option (Option (T × Bool) × Shared_Queue T) :=
  dequeueFrom q q.control_block.head fuel

/-- Method `create` (lines 171-241), first attacher on a fresh zero-filled
region (so `initialization_flag = 0` and the CAS at line 206 succeeds).
`aligned_control_size` abstracts `(sizeof(Shared_Control_Block) + alignment - 1)
& ~(alignment - 1)` (lines 177-178) and `slot_size` abstracts
`sizeof(Buffer_Slot)`; both are positive platform constants.  `none` models
`return false`.  The winner placement-news the control block (line 211), then
initializes slot `i` with `sequence = i`, `important = false` and a
default-constructed payload (lines 216-221), and finally stores 2 into the
flag (line 224). -/
def create (T : Type) [Inhabited T]
    (aligned_control_size slot_size shared_memory_size : Nat) :
    Option (Shared_Queue T) :=
  if shared_memory_size < aligned_control_size then none -- lines 181-185
  else
    let buffer_space := shared_memory_size - aligned_control_size -- line 188
    let queue_capacity := buffer_space / slot_size -- line 191
    if queue_capacity = 0 then none -- lines 194-198
    else
      some
        { control_block :=
            { Shared_Control_Block.construct queue_capacity with
                initialization_flag := 2 },
          buffer := fun i =>
            { sequence := i, data := default, important := false } }

/-- Every value taken by `initialization_flag` along the winner's path of
`create` (lines 204-225), in order: 0 on the fresh zero region, 1 written by
the CAS at line 206, then the value the placement-new constructor at line 211
stores into it (the constructor, lines 30-33, initializes the flag), and
finally the 2 stored at line 224. -/
def create_flag_history (queue_capacity : Nat) : List Nat :=
  let fresh_value := 0
  let cas_value := 1
  let ctor_value := (Shared_Control_Block.construct queue_capacity).initialization_flag
  let ready_value := 2
  [fresh_value, cas_value, ctor_value, ready_value]

end Shared_Queue

/-- A freshly initialized queue of capacity `cap` over `Nat` payloads, as the
first attacher's `create` produces it on a sufficiently large region. -/
def freshQ (cap : Nat) : Shared_Queue Nat :=
  { control_block :=
      { initialization_flag := 2, head := 0, tail := 0, capacity := cap },
    buffer := fun i => { sequence := i, data := 0, important := false } }

/-- State reached from a successful single-threaded `enqueue` call with fuel 1
(the default-result second component is irrelevant: it is used only after the
call is proved to return `some`). -/
def afterEnq (q : Shared_Queue Nat) (v : Nat) (imp : Bool) : Shared_Queue Nat :=
  ((q.enqueue v imp 1).getD (false, q)).2

/-- Single-threaded run on a fresh capacity-2 queue: three non-important
enqueues; the third one observes a full ring and takes the overwrite path. -/
def run2_1 : Shared_Queue Nat := afterEnq (freshQ 2) 1 false

def run2_2 : Shared_Queue Nat := afterEnq run2_1 2 false

def run2_3 : Shared_Queue Nat := afterEnq run2_2 3 false

/-- Single-threaded run on a fresh capacity-4 queue: five non-important
enqueues (the last one an overwrite on the full ring). -/
def run4_1 : Shared_Queue Nat := afterEnq (freshQ 4) 1 false

def run4_2 : Shared_Queue Nat := afterEnq run4_1 2 false

def run4_3 : Shared_Queue Nat := afterEnq run4_2 3 false

def run4_4 : Shared_Queue Nat := afterEnq run4_3 4 false

def run4_5 : Shared_Queue Nat := afterEnq run4_4 5 false

/-- Single-threaded run on a fresh capacity-1 queue: one important enqueue
followed by one non-important enqueue. -/
def run1_1 : Shared_Queue Nat := afterEnq (freshQ 1) 7 true

def run1_2 : Shared_Queue Nat := afterEnq run1_1 8 false

/-- Single-threaded run on a fresh capacity-2 queue in which the third enqueue
overwrites with `important = true`, leaving the slot at `head mod C` important
while the ring stays over-full. -/
def run2_3i : Shared_Queue Nat := afterEnq run2_2 3 true

/-- The outcome of one iteration of the `enqueue` loop taken at `pos = tail`.
In a single-threaded call `pos` always equals `tail` when the loop body runs
(it starts there, and every reload reads `tail` again), so a call that returns
returns exactly this. `none` corresponds to the `diff > 0` branch, which
re-enters the loop with the same `pos`. -/
def Shared_Queue.enqueueResult {T : Type} (q : Shared_Queue T) (value : T)
    (imp : Bool) : Option (Bool × Shared_Queue T) :=
  let pos := q.control_block.tail
  let slot := q.buffer (q.wrap pos)
  let diff : Int := (slot.sequence : Int) - (pos : Int)
  if diff = 0 then some (true, q.enqueueCommit pos value imp)
  else if diff < 0 then
    if slot.important then some (false, q)
    else some (true, q.enqueueCommit pos value imp)
  else none

/-- Sequentially enqueue `count` important items with consecutive payloads
`first, first + 1, ...`; `none` as soon as one of the enqueues returns false
or fails to return. -/
def fillImportant : Shared_Queue Nat → Nat → Nat → Option (Shared_Queue Nat)
  | q, _, 0 => some q
  | q, first, count + 1 =>
    match q.enqueue first true 1 with
    | some (true, q') => fillImportant q' (first + 1) count
    | _ => none

/-- The state of a capacity-`C` queue after the first `k` important enqueues
(payloads `0, ..., k - 1`) from fresh, for `k ≤ C`: `tail = k`, slots below `k`
hold their item with the importance flag set, the rest are still fresh. -/
def midState (C k : Nat) : Shared_Queue Nat :=
  { control_block :=
      { initialization_flag := 2, head := 0, tail := k, capacity := C },
    buffer := fun j =>
      if j < k then { sequence := j + 1, data := j, important := true }
      else { sequence := j, data := 0, important := false } }


/-! Theorems -/

/-- C1 (code_bug).  The spec's count bound `tail - head ∈ [0, C]` fails on the
code: on a fresh capacity-4 queue, five single-threaded non-important enqueues
all return true (the fifth takes the overwrite path, whose winning CAS advances
`tail` without ever touching `head`), after which `size_approx = tail - head =
5 > 4 = capacity`. -/
theorem C1_count_bound_violated :
    ((freshQ 4).enqueue 1 false 1).map Prod.fst = some true ∧
    (run4_1.enqueue 2 false 1).map Prod.fst = some true ∧
    (run4_2.enqueue 3 false 1).map Prod.fst = some true ∧
    (run4_3.enqueue 4 false 1).map Prod.fst = some true ∧
    (run4_4.enqueue 5 false 1).map Prod.fst = some true ∧
    run4_5.control_block.capacity = 4 ∧
    run4_5.size_approx = 5 := by decide

/-- C2 (code_bug).  The claim says a full-ring enqueue with a non-important
head slot reads and advances `head` before the producer CAS on `tail`.  In the
code the eviction is the `tail` CAS alone: on a fresh capacity-2 queue, two
enqueues fill the ring (`head = 0`, `tail = 2`, the slot at `tail mod C` has
sequence 1, so `diff = -1 < 0`, and the slot at `head mod C` is not important);
the third enqueue returns true yet `head` is still 0 afterwards, while `tail`
moved to 3. -/
theorem C2_eviction_without_head_advance :
    ((freshQ 2).enqueue 1 false 1).map Prod.fst = some true ∧
    (run2_1.enqueue 2 false 1).map Prod.fst = some true ∧
    run2_2.control_block.head = 0 ∧
    run2_2.control_block.tail = 2 ∧
    (run2_2.buffer (run2_2.wrap run2_2.control_block.tail)).sequence = 1 ∧
    (run2_2.buffer (run2_2.wrap run2_2.control_block.head)).important = false ∧
    (run2_2.enqueue 3 false 1).map Prod.fst = some true ∧
    run2_3.control_block.head = 0 ∧
    run2_3.control_block.tail = 3 := by decide

/-- C3 (code_bug).  After the reachable overwrite above (fresh capacity-2
queue, three successful non-important enqueues), a single-threaded `dequeue`
never returns: at `pos = head = 0` the slot's sequence is 3, so `diff = 2 > 0`
and the loop reloads `pos` from the unchanged `head` forever.  For every
amount of fuel the loop has not returned. -/
theorem C3_dequeue_never_returns :
    (((freshQ 2).enqueue 1 false 1).map Prod.fst = some true ∧
     (run2_1.enqueue 2 false 1).map Prod.fst = some true ∧
     (run2_2.enqueue 3 false 1).map Prod.fst = some true) ∧
    ∀ fuel, run2_3.dequeue fuel = none := by
  refine ⟨by decide, ?_⟩
  intro fuel
  induction fuel with
  | zero => rfl
  | succ n ih => exact ih

/-- C4 (code_bug).  On a capacity-1 queue an unconsumed important item is
overwritten by the next enqueue through the `diff == 0` path, which performs no
importance check: after `enqueue(7, true)` the single slot holds the important
item 7 and no dequeue has happened (`head = 0`), yet `enqueue(8, false)`
returns true and replaces it — the important item left the queue without a
successful dequeue, contradicting the code's own "cannot overwrite important
data" guard. -/
theorem C4_important_item_overwritten :
    ((freshQ 1).enqueue 7 true 1).map Prod.fst = some true ∧
    run1_1.buffer 0 = { sequence := 1, data := 7, important := true } ∧
    run1_1.control_block.head = 0 ∧
    (run1_1.enqueue 8 false 1).map Prod.fst = some true ∧
    run1_2.control_block.head = 0 ∧
    run1_2.buffer 0 = { sequence := 2, data := 8, important := false } := by
  decide

/-- C10 (code_bug).  For every capacity, the winner's path writes the values
`0, 1, 0, 2` to `initialization_flag`: after the CAS sets it to 1, the
placement-new of the control block (line 211) runs the constructor, which
re-initializes the flag to 0 before the final store of 2 — so the flag does
return to 0 after having been set to 1, refuting the claimed 0 → 1 → 2
monotonicity. -/
theorem C10_flag_returns_to_zero (cap : Nat) :
    Shared_Queue.create_flag_history cap = [0, 1, 0, 2] := rfl

/-- C9 (confirmed).  `create` fails exactly when the region cannot hold the
aligned control block plus at least one slot (`N < aligned_control_size`, or
`(N - aligned_control_size) / slot_size = 0`), and on success the first
attacher obtains `capacity = (N - aligned_control_size) / slot_size`,
`head = 0`, `tail = 0`, and slot `i` with `sequence = i` (for every index, in
particular every `i < capacity`). -/
theorem C9_create_sizing {T : Type} [Inhabited T]
    (aligned_control_size slot_size shared_memory_size : Nat) :
    Shared_Queue.create T aligned_control_size slot_size shared_memory_size =
      if shared_memory_size < aligned_control_size ∨
          (shared_memory_size - aligned_control_size) / slot_size = 0 then
        none
      else
        some
          { control_block :=
              { initialization_flag := 2, head := 0, tail := 0,
                capacity :=
                  (shared_memory_size - aligned_control_size) / slot_size },
            buffer := fun i =>
              { sequence := i, data := default, important := false } } := by
  by_cases h1 : shared_memory_size < aligned_control_size
  · simp [Shared_Queue.create, h1]
  · by_cases h2 : (shared_memory_size - aligned_control_size) / slot_size = 0
    · simp [Shared_Queue.create, h1, h2]
    · simp [Shared_Queue.create, h1, h2, Shared_Control_Block.construct]

/-- Helper: a `dequeue` whose head slot is readable (sequence = head + 1)
returns the slot's payload and flag and commits as in lines 148-152. -/
theorem dequeue_ready {T : Type} (q : Shared_Queue T)
    (hseq : (q.buffer (q.wrap q.control_block.head)).sequence =
      q.control_block.head + 1) :
    q.dequeue 1 =
      some (some ((q.buffer (q.wrap q.control_block.head)).data,
          (q.buffer (q.wrap q.control_block.head)).important),
        q.dequeueCommit q.control_block.head) := by
  have h0 : ((q.buffer (q.wrap q.control_block.head)).sequence : Int) -
      ((q.control_block.head : Int) + 1) = 0 := by
    rw [hseq]; push_cast; ring
  simp [Shared_Queue.dequeue, Shared_Queue.dequeueFrom, h0]

/-- C7 (confirmed).  When the slot at `head mod C` has sequence `head + 1`, a
single-threaded `dequeue` succeeds: it returns the slot's `data` and
`important`, clears the slot's importance flag, sets the slot's sequence to
`head + capacity`, advances `head` by one, and leaves `tail` and every other
physical slot unchanged. -/
theorem C7_dequeue_success_post {T : Type} (q : Shared_Queue T)
    (hc : 0 < q.control_block.capacity)
    (hseq : (q.buffer (q.wrap q.control_block.head)).sequence =
      q.control_block.head + 1) :
    ∃ q2,
      q.dequeue 1 =
        some (some ((q.buffer (q.wrap q.control_block.head)).data,
          (q.buffer (q.wrap q.control_block.head)).important), q2) ∧
      q2.control_block.head = q.control_block.head + 1 ∧
      q2.control_block.tail = q.control_block.tail ∧
      (q2.buffer (q.wrap q.control_block.head)).sequence =
        q.control_block.head + q.control_block.capacity ∧
      (q2.buffer (q.wrap q.control_block.head)).data =
        (q.buffer (q.wrap q.control_block.head)).data ∧
      (q2.buffer (q.wrap q.control_block.head)).important = false ∧
      ∀ j, j ≠ q.wrap q.control_block.head → q2.buffer j = q.buffer j := by
  refine ⟨q.dequeueCommit q.control_block.head, dequeue_ready q hseq, rfl, rfl,
    ?_, ?_, ?_, ?_⟩
  · simp [Shared_Queue.dequeueCommit]
  · simp [Shared_Queue.dequeueCommit]
  · simp [Shared_Queue.dequeueCommit]
  · intro j hj
    simp [Shared_Queue.dequeueCommit, hj]

/-- Witness for C7 on the concrete state after `enqueue(7, true)` on a fresh
capacity-1 queue: dequeue returns `(7, true)`, advances head to 1, keeps tail
at 1, and resets the slot to sequence `0 + 1 = 1` with the flag cleared. -/
theorem C7_dequeue_success_post_witness :
    0 < run1_1.control_block.capacity ∧
    (run1_1.buffer (run1_1.wrap run1_1.control_block.head)).sequence =
      run1_1.control_block.head + 1 ∧
    ∃ q2, run1_1.dequeue 1 = some (some (7, true), q2) ∧
      q2.control_block.head = 1 ∧ q2.control_block.tail = 1 ∧
      (q2.buffer 0).sequence = 1 ∧ (q2.buffer 0).important = false := by
  refine ⟨by decide, by decide, ?_⟩
  obtain ⟨q2, h1, h2, h3, h4, h5, h6, h7⟩ :=
    C7_dequeue_success_post run1_1 (by decide) (by decide)
  exact ⟨q2, h1, h2, h3, h4, h6⟩

/-- C8 (confirmed).  When the slot at `head mod C` has sequence strictly below
`head + 1` (i.e. `diff < 0`: the queue is empty at this position), `dequeue`
returns false and leaves the whole state — head, tail and every slot —
unchanged, for any amount of fuel. -/
theorem C8_empty_dequeue {T : Type} (q : Shared_Queue T)
    (hc : 0 < q.control_block.capacity)
    (hlt : (q.buffer (q.wrap q.control_block.head)).sequence <
      q.control_block.head + 1) :
    ∀ fuel, q.dequeue (fuel + 1) = some (none, q) := by
  intro fuel
  have hne : ¬(((q.buffer (q.wrap q.control_block.head)).sequence : Int) -
      ((q.control_block.head : Int) + 1) = 0) := by omega
  have hneg : ((q.buffer (q.wrap q.control_block.head)).sequence : Int) -
      ((q.control_block.head : Int) + 1) < 0 := by omega
  simp [Shared_Queue.dequeue, Shared_Queue.dequeueFrom, hne, hneg]

/-- Witness for C8 on a fresh capacity-2 queue (slot 0 has sequence 0 < 1):
dequeue returns false with the state untouched. -/
theorem C8_empty_dequeue_witness :
    (0 < (freshQ 2).control_block.capacity ∧
     ((freshQ 2).buffer
        ((freshQ 2).wrap (freshQ 2).control_block.head)).sequence <
       (freshQ 2).control_block.head + 1) ∧
    (freshQ 2).dequeue 1 = some (none, freshQ 2) :=
  ⟨⟨by decide, by decide⟩, C8_empty_dequeue (freshQ 2) (by decide) (by decide) 0⟩

/-- Helper: in a single-threaded call every loop iteration of `enqueue` runs
at `pos = tail` (the position starts there and every retry reloads it), so if
the call returns true the resulting state is the commit at `tail`. -/
theorem enqueue_true_eq {T : Type} (q : Shared_Queue T) (value : T)
    (imp : Bool) :
    ∀ (fuel : Nat) (q2 : Shared_Queue T),
      q.enqueue value imp fuel = some (true, q2) →
      q2 = q.enqueueCommit q.control_block.tail value imp := by
  intro fuel
  induction fuel with
  | zero =>
    intro q2 h
    simp [Shared_Queue.enqueue, Shared_Queue.enqueueFrom] at h
  | succ n ih =>
    intro q2 h
    rw [Shared_Queue.enqueue] at h
    simp only [Shared_Queue.enqueueFrom] at h
    split at h
    · simp only [if_true] at h
      injection h with h1
      injection h1 with h2 h3
      exact h3.symm
    · split at h
      · split at h
        · exact absurd (congrArg (fun o => (Option.getD o (true, q)).1) h)
            (by simp)
        · simp only [if_true] at h
          injection h with h1
          injection h1 with h2 h3
          exact h3.symm
      · exact ih q2 h

/-- C6 amended (corrected claim).  On an otherwise-quiescent queue that is
empty (`head = tail`), a successful `enqueue(v, imp)` is followed by a
dequeue that returns true and yields exactly `(v, imp)`. -/
theorem C6_round_trip_amended {T : Type} (q : Shared_Queue T) (v : T)
    (imp : Bool) (fuel : Nat) (q2 : Shared_Queue T)
    (hc : 0 < q.control_block.capacity)
    (he : q.control_block.head = q.control_block.tail)
    (hs : q.enqueue v imp fuel = some (true, q2)) :
    ∃ q3, q2.dequeue 1 = some (some (v, imp), q3) := by
  have hq2 : q2 = q.enqueueCommit q.control_block.tail v imp :=
    enqueue_true_eq q v imp fuel q2 hs
  subst hq2
  have hseq2 : ((q.enqueueCommit q.control_block.tail v imp).buffer
      ((q.enqueueCommit q.control_block.tail v imp).wrap
        (q.enqueueCommit q.control_block.tail v imp).control_block.head)).sequence =
      (q.enqueueCommit q.control_block.tail v imp).control_block.head + 1 := by
    simp [Shared_Queue.enqueueCommit, Shared_Queue.wrap, he]
  have hslot : (q.enqueueCommit q.control_block.tail v imp).buffer
      ((q.enqueueCommit q.control_block.tail v imp).wrap
        (q.enqueueCommit q.control_block.tail v imp).control_block.head) =
      { sequence := q.control_block.tail + 1, data := v, important := imp } := by
    simp [Shared_Queue.enqueueCommit, Shared_Queue.wrap, he]
  have hdeq := dequeue_ready (q.enqueueCommit q.control_block.tail v imp) hseq2
  rw [hslot] at hdeq
  exact ⟨_, hdeq⟩

/-- Witness for the amended C6 on a fresh capacity-1 queue: after
`enqueue(5, true)` succeeds, the next dequeue yields exactly `(5, true)`. -/
theorem C6_round_trip_amended_witness :
    (0 < (freshQ 1).control_block.capacity ∧
     (freshQ 1).control_block.head = (freshQ 1).control_block.tail ∧
     (freshQ 1).enqueue 5 true 1 = some (true, afterEnq (freshQ 1) 5 true)) ∧
    ∃ q3, (afterEnq (freshQ 1) 5 true).dequeue 1 = some (some (5, true), q3) :=
  ⟨⟨by decide, by decide, rfl⟩,
   C6_round_trip_amended (freshQ 1) 5 true 1 (afterEnq (freshQ 1) 5 true)
     (by decide) (by decide) rfl⟩

/-- C6 counterexample.  The claim as stated quantifies over every reachable
state: here the queue already holds an older item, `enqueue(2, false)`
succeeds, and the next dequeue yields `(1, false)`, not the pair just
enqueued. -/
theorem C6_round_trip_counterexample :
    ((freshQ 2).enqueue 1 false 1).map Prod.fst = some true ∧
    (run2_1.enqueue 2 false 1).map Prod.fst = some true ∧
    (run2_2.dequeue 1).map Prod.fst = some (some (1, false)) ∧
    ((1 : Nat), false) ≠ ((2 : Nat), false) := by decide

/-- Helper: when the slot at `tail mod C` has a sequence below `tail`
(`diff < 0`, ring full at this position) and its importance flag is set,
`enqueue` returns false on its first iteration and the state is untouched. -/
theorem enqueue_full_important {T : Type} (q : Shared_Queue T) (v : T)
    (imp : Bool) (fuel : Nat)
    (hfull : (q.buffer (q.wrap q.control_block.tail)).sequence <
      q.control_block.tail)
    (himp : (q.buffer (q.wrap q.control_block.tail)).important = true) :
    q.enqueue v imp (fuel + 1) = some (false, q) := by
  have hne : ¬(((q.buffer (q.wrap q.control_block.tail)).sequence : Int) -
      (q.control_block.tail : Int) = 0) := by omega
  have hneg : ((q.buffer (q.wrap q.control_block.tail)).sequence : Int) -
      (q.control_block.tail : Int) < 0 := by omega
  simp [Shared_Queue.enqueue, Shared_Queue.enqueueFrom, hne, hneg, himp]

/-- Helper: a fresh queue is the k = 0 instance of `midState`. -/
theorem freshQ_eq_mid (C : Nat) : freshQ C = midState C 0 :=
  Shared_Queue.ext rfl (funext fun j => by simp [freshQ, midState])

/-- Helper: for `k < C`, the (k+1)-st important enqueue from fresh succeeds
and moves the intermediate state one step. -/
theorem mid_step (C k : Nat) (hk : k < C) :
    (midState C k).enqueue k true 1 = some (true, midState C (k + 1)) := by
  have hmod : k % C = k := Nat.mod_eq_of_lt hk
  have hcommit : (midState C k).enqueueCommit k k true = midState C (k + 1) := by
    refine Shared_Queue.ext ?_ (funext fun j => ?_)
    · simp [Shared_Queue.enqueueCommit, midState]
    · by_cases hj : j = k
      · subst hj
        simp [Shared_Queue.enqueueCommit, Shared_Queue.wrap, midState, hmod]
      · by_cases hlt : j < k
        · have hlt2 : j < k + 1 := by omega
          simp [Shared_Queue.enqueueCommit, Shared_Queue.wrap, midState, hmod,
            hj, hlt, hlt2]
        · have hlt2 : ¬(j < k + 1) := by omega
          simp [Shared_Queue.enqueueCommit, Shared_Queue.wrap, midState, hmod,
            hj, hlt, hlt2]
  show Shared_Queue.enqueueFrom (midState C k) k true k 1 =
    some (true, midState C (k + 1))
  rw [← hcommit]
  have hslot : (midState C k).buffer ((midState C k).wrap k) =
      { sequence := k, data := 0, important := false } := by
    simp [Shared_Queue.wrap, midState, hmod]
  simp only [Shared_Queue.enqueueFrom]
  rw [hslot]
  simp [midState]

/-- Helper: enqueuing `n` important items with payloads `k, ..., k + n - 1`
into the intermediate state `midState C k` succeeds whenever `k + n ≤ C`. -/
theorem fill_mid (C : Nat) :
    ∀ n k, k + n ≤ C →
      fillImportant (midState C k) k n = some (midState C (k + n)) := by
  intro n
  induction n with
  | zero => intro k h; simp [fillImportant]
  | succ m ih =>
    intro k h
    have hk : k < C := by omega
    have hstep := mid_step C k hk
    simp only [fillImportant, hstep]
    have h2 := ih (k + 1) (by omega)
    have h3 : k + 1 + m = k + (m + 1) := by omega
    rw [h3] at h2
    exact h2

/-- Helper: enqueuing C important items into a fresh capacity-C queue
succeeds and yields the completely full state. -/
theorem full_state_fill (C : Nat) (hC : 2 ≤ C) :
    fillImportant (freshQ C) 0 C = some (midState C C) := by
  rw [freshQ_eq_mid]
  have h := fill_mid C C 0 (by omega)
  simpa using h

/-- Helper: on the completely full all-important state, any further enqueue
is rejected with the state unchanged. -/
theorem full_state_reject (C : Nat) (hC : 2 ≤ C) (x : Nat) (imp : Bool)
    (fuel : Nat) :
    (midState C C).enqueue x imp (fuel + 1) = some (false, midState C C) := by
  have h0C : 0 < C := by omega
  have h0 : (midState C C).wrap (midState C C).control_block.tail = 0 := by
    simp [Shared_Queue.wrap, midState, Nat.mod_self]
  have hb : (midState C C).buffer 0 =
      { sequence := 1, data := 0, important := true } := by
    simp [midState, h0C]
  apply enqueue_full_important
  · rw [h0, hb]
    simp [midState]
    omega
  · rw [h0, hb]

/-- Helper: on the completely full all-important state, dequeue succeeds and
returns the oldest important item `(0, true)`. -/
theorem full_state_dequeue (C : Nat) (hC : 2 ≤ C) :
    (midState C C).dequeue 1 =
      some (some (0, true),
        (midState C C).dequeueCommit (midState C C).control_block.head) := by
  have h0C : 0 < C := by omega
  have h0 : (midState C C).wrap (midState C C).control_block.head = 0 := by
    simp [Shared_Queue.wrap, midState]
  have hb : (midState C C).buffer 0 =
      { sequence := 1, data := 0, important := true } := by
    simp [midState, h0C]
  have hseq : ((midState C C).buffer
      ((midState C C).wrap (midState C C).control_block.head)).sequence =
      (midState C C).control_block.head + 1 := by
    rw [h0, hb]
    simp [midState]
  have hd := dequeue_ready (midState C C) hseq
  rw [h0, hb] at hd
  simpa using hd

/-- Helper: after that dequeue, the previously rejected non-important enqueue
succeeds. -/
theorem full_state_retry (C : Nat) (hC : 2 ≤ C) (x : Nat) :
    ((midState C C).dequeueCommit
        (midState C C).control_block.head).enqueue x false 1 =
      some (true,
        ((midState C C).dequeueCommit
          (midState C C).control_block.head).enqueueCommit C x false) := by
  have h0C : 0 < C := by omega
  have hw : ((midState C C).dequeueCommit
      (midState C C).control_block.head).wrap C = 0 := by
    simp [Shared_Queue.dequeueCommit, Shared_Queue.wrap, midState, Nat.mod_self]
  have hbD : ((midState C C).dequeueCommit
      (midState C C).control_block.head).buffer 0 =
      { sequence := C, data := 0, important := false } := by
    simp [Shared_Queue.dequeueCommit, Shared_Queue.wrap, midState, h0C]
  show Shared_Queue.enqueueFrom
      ((midState C C).dequeueCommit (midState C C).control_block.head)
      x false C 1 = _
  simp only [Shared_Queue.enqueueFrom]
  rw [hw, hbD]
  simp [Shared_Queue.dequeueCommit, midState]

/-- C5 amended (corrected claim).  The slot `enqueue` examines on a full ring
is the one at `tail mod C`, not the one at `head mod C` (they coincide only
while `tail - head` is a multiple of `C`, e.g. on an exactly full ring): when
that slot's importance flag is true, `enqueue` returns false and leaves head,
tail and every slot unchanged.  The C-important-items scenario holds for every
capacity `C ≥ 2`: after enqueuing C important items into a fresh queue, a
further non-important enqueue returns false with the state unchanged, and
after one successful dequeue (yielding the oldest important item) the retried
enqueue returns true.  (At `C = 1` the further enqueue instead takes the
`diff == 0` path and returns true.) -/
theorem C5_strict_importance_amended :
    (∀ (T : Type) (q : Shared_Queue T) (v : T) (imp : Bool) (fuel : Nat),
        (q.buffer (q.wrap q.control_block.tail)).sequence <
          q.control_block.tail →
        (q.buffer (q.wrap q.control_block.tail)).important = true →
        q.enqueue v imp (fuel + 1) = some (false, q)) ∧
    (∀ C, 2 ≤ C → ∀ x : Nat,
        ∃ qC qD qE,
          fillImportant (freshQ C) 0 C = some qC ∧
          qC.enqueue x false 1 = some (false, qC) ∧
          qC.dequeue 1 = some (some (0, true), qD) ∧
          qD.enqueue x false 1 = some (true, qE)) := by
  constructor
  · intro T q v imp fuel hfull himp
    exact enqueue_full_important q v imp fuel hfull himp
  · intro C hC x
    exact ⟨midState C C,
      (midState C C).dequeueCommit (midState C C).control_block.head,
      ((midState C C).dequeueCommit
        (midState C C).control_block.head).enqueueCommit C x false,
      full_state_fill C hC, full_state_reject C hC x false 0,
      full_state_dequeue C hC, full_state_retry C hC x⟩

/-- Witness for the amended C5: the general rejection applied to the full
all-important capacity-2 state, and the scenario instantiated at C = 4 (the
spec's own test). -/
theorem C5_strict_importance_amended_witness :
    ((midState 2 2).buffer
        ((midState 2 2).wrap (midState 2 2).control_block.tail)).sequence <
      (midState 2 2).control_block.tail ∧
    ((midState 2 2).buffer
        ((midState 2 2).wrap (midState 2 2).control_block.tail)).important =
      true ∧
    (midState 2 2).enqueue 9 true 1 = some (false, midState 2 2) ∧
    (2 ≤ 4 ∧
      ∃ qC qD qE,
        fillImportant (freshQ 4) 0 4 = some qC ∧
        qC.enqueue 99 false 1 = some (false, qC) ∧
        qC.dequeue 1 = some (some (0, true), qD) ∧
        qD.enqueue 99 false 1 = some (true, qE)) :=
  ⟨by decide, by decide,
   C5_strict_importance_amended.1 Nat (midState 2 2) 9 true 0 (by decide)
     (by decide),
   by decide, C5_strict_importance_amended.2 4 (by decide) 99⟩

/-- C5 counterexample.  A reachable state (fresh capacity-2 queue; enqueue
`(1, false)`, `(2, false)`, then overwrite with `(3, true)`) where the ring is
over-full (`diff < 0` at `tail`), the slot at `head mod C` IS important, and
yet `enqueue(4, false)` returns true and advances `tail` — the code checked
the slot at `tail mod C` instead.  Moreover, the "C important items" scenario
fails at capacity 1: after one important enqueue, a non-important enqueue
returns true rather than false. -/
theorem C5_strict_importance_counterexample :
    (((freshQ 2).enqueue 1 false 1).map Prod.fst = some true ∧
     (run2_1.enqueue 2 false 1).map Prod.fst = some true ∧
     (run2_2.enqueue 3 true 1).map Prod.fst = some true ∧
     run2_3i.control_block.head = 0 ∧
     run2_3i.control_block.tail = 3 ∧
     (run2_3i.buffer (run2_3i.wrap run2_3i.control_block.tail)).sequence = 2 ∧
     (run2_3i.buffer (run2_3i.wrap run2_3i.control_block.head)).important =
       true ∧
     (run2_3i.enqueue 4 false 1).map Prod.fst = some true ∧
     (afterEnq run2_3i 4 false).control_block.tail = 4) ∧
    (fillImportant (freshQ 1) 0 1).map
        (fun q => (q.enqueue 9 false 1).map Prod.fst) = some (some true) := by
  decide

end sq
